import Mathlib

/-!
Shallow embedding of the ComicDB archive-scanning and metadata-extraction
engine (src/struttura/comic_scanner.py and the scan loop of
src/gui/comics_panel.py), together with theorems settling the frozen claims
about it.

Modelling conventions:
* Python dictionaries (the scanner passes metadata around as a mutable
  Dict of string keys to heterogeneous values) are modelled as insertion
  ordered association lists over an inductive value type PyVal, with
  Python assignment semantics (update in place, else append).
* External libraries (zipfile, rarfile, py7zr, pikepdf, PIL,
  xml.etree.ElementTree, the filesystem) are modelled as oracle data
  carried by the file value: whether an open succeeds, the entry listing,
  the parsed form of an XML payload, the bytes PIL would produce.  The
  control flow around those calls (the scanner's own code) is translated
  faithfully from the source.
* Strings are handled through their character lists so that every
  operation reduces inside the kernel; ASCII inputs behave exactly as the
  corresponding Python string operations.
-/

namespace ComicDB

/-! ## Character and string utilities (Python semantics, ASCII fragment) -/

/-- Whitespace characters recognised by Python's str.strip and the regex
class backslash-s, restricted to ASCII. -/
def pyIsSpace (c : Char) : Bool :=
  c = ' ' || c = '\t' || c = '\n' || c = '\r' || c = '\x0b' || c = '\x0c'

/-- ASCII decimal digit test (Python regex backslash-d on ASCII input). -/
def pyIsDigit (c : Char) : Bool :=
  48 ≤ c.toNat && c.toNat ≤ 57

/-- Numeric value of an ASCII digit. -/
def digitToNat (c : Char) : Nat := c.toNat - 48

/-- Lowercase an ASCII string character by character (Python str.lower on
ASCII input). -/
def lowerStr (s : String) : String := String.mk (s.toList.map Char.toLower)

/-- Strip characters satisfying a predicate from both ends of a list
(Python str.strip). -/
def stripEnds (p : Char → Bool) (cs : List Char) : List Char :=
  ((cs.dropWhile p).reverse.dropWhile p).reverse

/-- Python str.strip with no argument: remove surrounding whitespace. -/
def pyStrip (s : String) : String := String.mk (stripEnds pyIsSpace s.toList)

/-- Prefix test on character lists. -/
def isPfx : List Char → List Char → Bool
  | [], _ => true
  | _ :: _, [] => false
  | a :: as, b :: bs => a = b && isPfx as bs

/-- Fuelled worker for replAll; the fuel is the length of the subject, which
is an upper bound on the number of steps since each step consumes at least
one character. -/
def replAllF (pat rep : List Char) : Nat → List Char → List Char
  | 0, s => s
  | _ + 1, [] => []
  | n + 1, c :: rest =>
    if 0 < pat.length ∧ isPfx pat (c :: rest) = true then
      rep ++ replAllF pat rep n ((c :: rest).drop pat.length)
    else
      c :: replAllF pat rep n rest

/-- Replace every non-overlapping occurrence of a pattern, scanning left to
right (Python str.replace; the scanner only ever calls it with a non-empty
pattern). -/
def pyReplace (s pat rep : String) : String :=
  String.mk (replAllF pat.toList rep.toList s.toList.length s.toList)

/-- Index of the last occurrence of a character in a list, if any. -/
def lastIdx (c : Char) (cs : List Char) : Option Nat :=
  (List.range cs.length).foldl
    (fun acc i => if cs.getD i ' ' = c then some i else acc) none

/-- Python os.path.basename for POSIX paths: the part after the last
slash. -/
def basenameStr (s : String) : String :=
  match lastIdx '/' s.toList with
  | none => s
  | some i => String.mk (s.toList.drop (i + 1))

/-- Python os.path.splitext: split off the extension at the last dot of the
basename, except that dots leading the basename do not start an
extension. -/
def splitExtPair (s : String) : String × String :=
  let cs := s.toList
  let base : Nat := match lastIdx '/' cs with
    | none => 0
    | some i => i + 1
  match lastIdx '.' cs with
  | none => (s, "")
  | some d =>
    if base ≤ d ∧ ((cs.drop base).take (d - base)).any (fun c => c ≠ '.') then
      (String.mk (cs.take d), String.mk (cs.drop d))
    else
      (s, "")

/-- Extension component of os.path.splitext. -/
def extOf (s : String) : String := (splitExtPair s).2

/-- Root component of os.path.splitext. -/
def rootOf (s : String) : String := (splitExtPair s).1

/-- The idiom os.path.splitext(path.lower())[1] used throughout the
scanner. -/
def extLower (s : String) : String := extOf (lowerStr s)

/-! ## Lexicographic string order and sorting (Python list.sort on str) -/

/-- Code-point lexicographic comparison of character lists, exactly the
order Python uses to compare strings. -/
def lexLe : List Char → List Char → Bool
  | [], _ => true
  | _ :: _, [] => false
  | a :: as, b :: bs =>
    if a.toNat = b.toNat then lexLe as bs else decide (a.toNat < b.toNat)

/-- String comparison derived from lexLe. -/
def strLe (a b : String) : Bool := lexLe a.toList b.toList

/-- Insert a string into a sorted list, keeping it before later equal
elements (stable, like Python's sort). -/
def insSorted (x : String) : List String → List String
  | [] => [x]
  | y :: ys => if strLe x y then x :: y :: ys else y :: insSorted x ys

/-- Stable insertion sort; on a total order it produces the same list as
Python's list.sort. -/
def sortStrs : List String → List String
  | [] => []
  | x :: xs => insSorted x (sortStrs xs)

/-! ## Python runtime values and dictionaries -/

/-- Result of Python's float conversion. -/
inductive PyFloat where
  | finite (q : ℚ)
  | inf
  | negInf
  | nan
deriving DecidableEq

/-- Values the scanner stores in its metadata dictionaries: the code puts
strings, ints, floats, booleans, byte blobs, lists of strings and None into
them. -/
inductive PyVal where
  | none
  | str (s : String)
  | int (n : ℤ)
  | float (f : PyFloat)
  | bool (b : Bool)
  | bytes (b : List Nat)
  | strlist (l : List String)
deriving DecidableEq

/-- Insertion-ordered dictionary with string keys, the shape of the
metadata Dict the scanner threads through extraction. -/
abbrev PyDict := List (String × PyVal)

/-- Dictionary lookup. -/
def dget : PyDict → String → Option PyVal
  | [], _ => Option.none
  | (k, v) :: rest, key => if k = key then some v else dget rest key

/-- Python dictionary assignment: update the value in place if the key is
present, otherwise append the pair at the end. -/
def dset : PyDict → String → PyVal → PyDict
  | [], key, v => [(key, v)]
  | (k, w) :: rest, key, v =>
    if k = key then (k, v) :: rest else (k, w) :: dset rest key v

/-! ## Python numeric conversions -/

/-- Numeric value of a digit run, skipping the underscore separators that
Python permits inside literals. -/
def digitsToNat (cs : List Char) : Nat :=
  cs.foldl (fun acc c => if c = '_' then acc else acc * 10 + digitToNat c) 0

/-- Validity of the tail of a digit group: underscores must be followed by
a digit, everything else must be a digit. -/
def digitTail : List Char → Bool
  | [] => true
  | '_' :: rest =>
    match rest with
    | c :: rest2 => pyIsDigit c && digitTail rest2
    | [] => false
  | c :: rest => pyIsDigit c && digitTail rest

/-- Validity of a whole digit group: non-empty, starts with a digit, and
its tail is well formed. -/
def digitGroupOk (cs : List Char) : Bool :=
  match cs with
  | [] => false
  | c :: rest => pyIsDigit c && digitTail rest

/-- Python int conversion applied to the character list between the
optional sign and the end. -/
def pyIntBody (cs : List Char) : Option Nat :=
  if digitGroupOk cs then some (digitsToNat cs) else Option.none

/-- Python int conversion on a stripped character list, handling the
optional sign. -/
def pyIntChars : List Char → Option Int
  | '+' :: rest => (pyIntBody rest).map Int.ofNat
  | '-' :: rest => (pyIntBody rest).map (fun n => -(Int.ofNat n))
  | cs => (pyIntBody cs).map Int.ofNat

/-- Python's int(str) conversion (ASCII fragment): surrounding whitespace
is ignored, an optional sign is followed by digits with optional single
underscore separators; anything else raises ValueError, modelled as
Option.none. -/
def pyIntOfStr (s : String) : Option Int :=
  pyIntChars (stripEnds pyIsSpace s.toList)

/-- Number of actual digit characters in a group (underscores do not count
towards the decimal shift of a fractional part). -/
def digitCount (cs : List Char) : Nat := (cs.filter pyIsDigit).length

/-- Parse the numeric (non inf/nan) body of a Python float literal:
integer part, optional fractional part, optional exponent. -/
def pyFloatNum (cs : List Char) : Option ℚ :=
  let ipRun := cs.takeWhile (fun c => pyIsDigit c || c = '_')
  let rest1 := cs.drop ipRun.length
  let hasDot : Bool := match rest1 with
    | '.' :: _ => true
    | _ => false
  let rest2 := if hasDot then rest1.drop 1 else rest1
  let fpRun := if hasDot then rest2.takeWhile (fun c => pyIsDigit c || c = '_') else []
  let rest3 := rest2.drop fpRun.length
  let mantOk : Bool :=
    (ipRun.isEmpty || digitGroupOk ipRun) &&
    (fpRun.isEmpty || digitGroupOk fpRun) &&
    (!ipRun.isEmpty || (hasDot && !fpRun.isEmpty))
  let expPart : Option (Option Int) := match rest3 with
    | [] => some Option.none
    | 'e' :: er => (pyIntChars er).map some
    | 'E' :: er => (pyIntChars er).map some
    | _ => Option.none
  if mantOk then
    match expPart with
    | some eo =>
      let e : Int := eo.getD 0
      let m : Nat := digitsToNat ipRun * 10 ^ digitCount fpRun + digitsToNat fpRun
      let shift : Int := e - digitCount fpRun
      some (if 0 ≤ shift then mkRat (m * 10 ^ shift.toNat) 1
            else mkRat m (10 ^ (-shift).toNat))
    | Option.none => Option.none
  else Option.none

/-- Python's float(str) conversion (ASCII fragment): strip whitespace,
optional sign, then either inf/infinity/nan (case-insensitively) or a
decimal literal with optional fraction and exponent. -/
def pyFloatOfStr (s : String) : Option PyFloat :=
  let cs := stripEnds pyIsSpace s.toList
  let (neg, body) : Bool × List Char := match cs with
    | '+' :: rest => (false, rest)
    | '-' :: rest => (true, rest)
    | _ => (false, cs)
  let low := body.map Char.toLower
  if low = "inf".toList ∨ low = "infinity".toList then
    some (if neg then PyFloat.negInf else PyFloat.inf)
  else if low = "nan".toList then some PyFloat.nan
  else (pyFloatNum body).map (fun q => PyFloat.finite (if neg then -q else q))

/-! ## Sidecar metadata parser (_parse_comic_info_xml)

An XML document that xml.etree.ElementTree parses successfully is modelled
as the list of the root's direct child elements, each a tag with optional
text; a document that fails to parse is Option.none (the code catches the
exception and leaves the metadata untouched). -/

/-- Direct child element of the ComicInfo root: tag name and text
content. -/
structure XmlElem where
  tag : String
  text : Option String
deriving DecidableEq

/-- ElementTree find: first direct child with the given tag. -/
def xfind (doc : List XmlElem) (t : String) : Option XmlElem :=
  doc.find? (fun e => e.tag == t)

/-- ElementTree findall: all direct children with the given tag, in
document order. -/
def xfindall (doc : List XmlElem) (t : String) : List XmlElem :=
  doc.filter (fun e => e.tag == t)

/-- The tag_mapping dictionary of _parse_comic_info_xml, in its insertion
order. -/
def tagMapping : List (String × String) :=
  [("Title", "title"), ("Series", "series"), ("Number", "issue_number"),
   ("Volume", "volume"), ("Year", "year"), ("Publisher", "publisher"),
   ("Summary", "summary"), ("Notes", "notes"), ("Genre", "genre"),
   ("LanguageISO", "language"), ("Web", "web"), ("PageCount", "page_count"),
   ("Format", "format"), ("BlackAndWhite", "black_and_white"),
   ("Manga", "manga"), ("Characters", "characters"), ("Teams", "teams"),
   ("Locations", "locations"), ("ScanInformation", "scan_info"),
   ("StoryArc", "story_arc"), ("StoryArcNumber", "story_arc_number"),
   ("SeriesGroup", "series_group"), ("AlternateSeries", "alternate_series"),
   ("AlternateNumber", "alternate_number"),
   ("AlternateCount", "alternate_count"), ("Count", "count"),
   ("AgeRating", "age_rating"), ("CommunityRating", "community_rating"),
   ("MainCharacterOrTeam", "main_character_or_team"), ("Review", "review")]

/-- Typed assignment of a tag's text into a metadata field, translated
from the per-field branches of _parse_comic_info_xml: year is parsed as
int and silently dropped on failure; the five fields of the second branch
try float (when the text has a dot) or int and fall back to storing the
raw text; black_and_white compares the lowercased text against yes, true
and 1; everything else stores the raw text. -/
def typedAssign (d : PyDict) (fl : String) (t : String) : PyDict :=
  if fl = "year" then
    match pyIntOfStr t with
    | some n => dset d fl (PyVal.int n)
    | Option.none => d
  else if ["page_count", "alternate_number", "alternate_count", "count",
           "community_rating"].contains fl then
    if t.toList.contains '.' then
      match pyFloatOfStr t with
      | some q => dset d fl (PyVal.float q)
      | Option.none => dset d fl (PyVal.str t)
    else
      match pyIntOfStr t with
      | some n => dset d fl (PyVal.int n)
      | Option.none => dset d fl (PyVal.str t)
  else if fl = "black_and_white" then
    dset d fl (PyVal.bool (["yes", "true", "1"].contains (lowerStr t)))
  else
    dset d fl (PyVal.str t)

/-- One iteration of the tag_mapping loop: look up the tag and, if the
element exists with non-empty text, perform the typed assignment. -/
def ciStep (elems : List XmlElem) (d : PyDict) (p : String × String) : PyDict :=
  match xfind elems p.1 with
  | Option.none => d
  | some e =>
    match e.text with
    | Option.none => d
    | some t => if t = "" then d else typedAssign d p.2 t

/-- The creator tags and the role strings the code attaches to them. -/
def creatorTags : List (String × String) :=
  [("Writer", "writer"), ("Penciller", "penciller"), ("Inker", "inker"),
   ("Colorist", "colorist"), ("Letterer", "letterer"),
   ("CoverArtist", "cover_artist"), ("Editor", "editor")]

/-- Python dict update keyed on the creator name: a repeated name keeps its
position but takes the latest role. -/
def upsert : List (String × String) → String → String → List (String × String)
  | [], name, role => [(name, role)]
  | (n, r) :: rest, name, role =>
    if n = name then (n, role) :: rest else (n, r) :: upsert rest name role

/-- Collect the creators dictionary by scanning the seven creator tags in
code order, skipping elements with empty text. -/
def collectCreators (doc : List XmlElem) : List (String × String) :=
  creatorTags.foldl
    (fun acc p =>
      (xfindall doc p.1).foldl
        (fun acc2 e =>
          match e.text with
          | some t => if t = "" then acc2 else upsert acc2 t p.2
          | Option.none => acc2)
        acc)
    []

/-- Translation of _parse_comic_info_xml: run the tag_mapping loop, then
render the creators as Name (role) strings into the authors field when any
creator was found; a document that failed to parse leaves the metadata
unchanged. -/
def parseComicInfoXml (doc : Option (List XmlElem)) (d : PyDict) : PyDict :=
  match doc with
  | Option.none => d
  | some elems =>
    let d1 := tagMapping.foldl (ciStep elems) d
    let cs := collectCreators elems
    if cs.isEmpty then d1
    else dset d1 "authors"
      (PyVal.strlist (cs.map (fun p => p.1 ++ " (" ++ p.2 ++ ")")))

/-! ## Filename heuristic (_parse_filename) -/

/-- First match of the pattern backslash-openparen d d d d closparen in
re.search order: scan left to right for an opening parenthesis followed by
exactly four digits and a closing parenthesis.  Returns the matched text
(group 0) and the numeric year (group 1 converted by int). -/
def findYearChars : List Char → Option (List Char × Nat)
  | [] => Option.none
  | c :: rest =>
    if c = '(' then
      match rest with
      | a :: b :: c2 :: d :: ')' :: _ =>
        if pyIsDigit a && pyIsDigit b && pyIsDigit c2 && pyIsDigit d then
          some (['(', a, b, c2, d, ')'],
            ((digitToNat a * 10 + digitToNat b) * 10 + digitToNat c2) * 10
              + digitToNat d)
        else findYearChars rest
      | _ => findYearChars rest
    else findYearChars rest

/-- Delimiter class of the issue-number pattern: hash, whitespace or
hyphen. -/
def isIssueDelim (c : Char) : Bool := c = '#' || pyIsSpace c || c = '-'

/-- First match of the issue-number pattern (a delimiter, then digits, then
whitespace, hyphen or end of string) in re.search order.  Greedy digits
never backtrack usefully here, since a shortened run would leave a digit
where the trailing class must match.  Returns group 0 (including the
leading delimiter and any trailing delimiter consumed) and the digit run
(group 1). -/
def findIssueChars : List Char → Option (List Char × List Char)
  | [] => Option.none
  | c :: rest =>
    if isIssueDelim c then
      let ds := rest.takeWhile pyIsDigit
      if ds.isEmpty then findIssueChars rest
      else
        match rest.drop ds.length with
        | [] => some (c :: ds, ds)
        | d :: _ =>
          if pyIsSpace d || d = '-' then some (c :: ds ++ [d], ds)
          else findIssueChars rest
    else findIssueChars rest

/-- Translation of _parse_filename: on the extension-stripped basename of
file_path, capture and remove a parenthesised four-digit year, then capture
and remove a delimiter-bounded digit run as the issue number, and store the
stripped remainder as both series and title.  Removal uses str.replace,
which replaces every occurrence of the matched text. -/
def parseFilenameDict (d : PyDict) : PyDict :=
  match dget d "file_path" with
  | some (PyVal.str p) =>
    let name0 := rootOf (basenameStr p)
    let step1 : PyDict × String :=
      match findYearChars name0.toList with
      | some (g0, y) =>
        (dset d "year" (PyVal.int (Int.ofNat y)),
         pyStrip (pyReplace name0 (String.mk g0) ""))
      | Option.none => (d, name0)
    let step2 : PyDict × String :=
      match findIssueChars step1.2.toList with
      | some (g0, ds) =>
        (dset step1.1 "issue_number" (PyVal.str (String.mk ds)),
         pyStrip (pyReplace step1.2 (String.mk g0) " "))
      | Option.none => step1
    dset (dset step2.1 "series" (PyVal.str (pyStrip step2.2)))
      "title" (PyVal.str (pyStrip step2.2))
  | _ => d

/-! ## PDF document-info metadata (_extract_pdf_metadata) -/

/-- Year extraction from a PDF CreationDate string: the code requires the
D-colon prefix and at least six characters, converts characters two to five
with int, and keeps the value only inside the 1900 to 2100 sanity bounds;
any failure is swallowed. -/
def pdfCreationYear (s : String) : Option Int :=
  if isPfx ['D', ':'] s.toList ∧ 6 ≤ s.toList.length then
    match pyIntOfStr (String.mk ((s.toList.drop 2).take 4)) with
    | some y => if 1900 ≤ y ∧ y ≤ 2100 then some y else Option.none
    | Option.none => Option.none
  else Option.none

/-- Python key-in-dict plus truthiness test on the docinfo mapping: the
value must be present and non-empty. -/
def lookupTruthy (info : List (String × String)) (k : String) : Option String :=
  match (info.find? (fun p => p.1 == k)).map Prod.snd with
  | some v => if v = "" then Option.none else some v
  | Option.none => Option.none

/-- Split on a separator character (Python str.split with an explicit
separator). -/
def splitOnChar (c : Char) : List Char → List (List Char)
  | [] => [[]]
  | x :: rest =>
    match splitOnChar c rest with
    | [] => if x = c then [[], []] else [[x]]
    | h :: t => if x = c then [] :: h :: t else (x :: h) :: t

/-! ## Files, archives and scanner configuration -/

/-- Archive entry as seen through a backend: its name, whether its bytes
can be retrieved (open and read do not raise), the bytes themselves, the
ElementTree parse of those bytes when used as a ComicInfo payload, and the
JPEG bytes PIL produces for it when used as an image (Option.none when PIL
fails to decode). -/
structure AEntry where
  name : String
  readable : Bool
  data : List Nat
  xml : Option (List XmlElem)
  pilJpeg : Option (List Nat)
deriving DecidableEq

/-- A file on disk together with the oracle outcomes of the external
libraries the scanner consults about it: filesystem stats, the first bytes,
the archive entry listing, and the success flags of zipfile, rarfile,
py7zr and pikepdf opens, plus the PDF docinfo mapping and the rasterised
first-page JPEG for the PDF cover path. -/
structure FsFile where
  path : String
  fexists : Bool
  isFile : Bool
  size : Nat
  mtime : ℚ
  header : List Nat
  entries : List AEntry
  zipOk : Bool
  isZipfile : Bool
  zipTestOk : Bool
  rarOk : Bool
  sevenOk : Bool
  pdfOk : Bool
  pdfInfo : List (String × String)
  pdfCoverJpeg : Option (List Nat)
deriving DecidableEq

/-- Host-dependent configuration of ComicScanner: whether the py7zr
package imported, and whether the rarfile module reports its UnRAR tool as
missing. -/
structure ScannerCfg where
  p7zipAvailable : Bool
  unrarMissing : Bool
deriving DecidableEq

/-- The ZIP local-file-header signature PK backslash-x03 backslash-x04
checked by is_archive_file. -/
def zipMagic : List Nat := [0x50, 0x4B, 0x03, 0x04]

/-- The supported_formats list built in ComicScanner.__init__: .7z is
removed when py7zr is unavailable.  Note that .zip and .rar are absent
while .cbt is present. -/
def supportedFormats (cfg : ScannerCfg) : List String :=
  if cfg.p7zipAvailable then [".cbr", ".cbz", ".cbt", ".cb7", ".7z", ".pdf"]
  else [".cbr", ".cbz", ".cbt", ".cb7", ".pdf"]

/-- Translation of is_comic_file: membership of the lowercased extension in
supported_formats. -/
def isComicFile (cfg : ScannerCfg) (path : String) : Bool :=
  (supportedFormats cfg).contains (extLower path)

/-- Translation of scan_directory's per-file test: the walked file names
are kept exactly when is_comic_file accepts them. -/
def scanDirectoryFilter (cfg : ScannerCfg) (names : List String) : List String :=
  names.filter (isComicFile cfg)

/-- The archive backends (and the PDF reader) the scanner can dispatch
to. -/
inductive Backend where
  | zip
  | rar
  | sevenZip
  | pdf
  | comicapi
deriving DecidableEq

/-- First archive entry whose lowercased basename is comicinfo.xml, as all
three sidecar readers select it. -/
def comicInfoEntry (f : FsFile) : Option AEntry :=
  (f.entries.filter
    (fun e => lowerStr (basenameStr e.name) == "comicinfo.xml")).head?

/-- Translation of _extract_zip_metadata: a failed zipfile open, a missing
ComicInfo.xml, or a read failure leaves the metadata unchanged; otherwise
the payload is parsed. -/
def extractZipMetadata (f : FsFile) (d : PyDict) : PyDict :=
  if !f.zipOk then d
  else
    match comicInfoEntry f with
    | Option.none => d
    | some e => if !e.readable then d else parseComicInfoXml e.xml d

/-- Translation of _extract_rar_metadata, with rarfile's open outcome as
oracle. -/
def extractRarMetadata (f : FsFile) (d : PyDict) : PyDict :=
  if !f.rarOk then d
  else
    match comicInfoEntry f with
    | Option.none => d
    | some e => if !e.readable then d else parseComicInfoXml e.xml d

/-- Translation of _extract_7z_metadata: returns immediately when py7zr is
unavailable; otherwise mirrors the zip and rar readers with extraction to a
temporary file in place of a streaming read. -/
def extract7zMetadata (cfg : ScannerCfg) (f : FsFile) (d : PyDict) : PyDict :=
  if !cfg.p7zipAvailable then d
  else if !f.sevenOk then d
  else
    match comicInfoEntry f with
    | Option.none => d
    | some e => if !e.readable then d else parseComicInfoXml e.xml d

/-- Extension dispatch of _extract_comic_archive_metadata (lines 366-375):
the choice of sidecar reader looks only at the lowercased extension, never
at the file's bytes.  The final branch is the comicapi fallback, which is
unreachable from extract_metadata because its caller only passes .cbr,
.cbz, .cb7 and .7z files; it is modelled as leaving the metadata
unchanged. -/
def extractComicArchiveMetadata (cfg : ScannerCfg) (f : FsFile) (d : PyDict) :
    PyDict :=
  match extLower f.path with
  | ".cbr" | ".rar" => extractRarMetadata f d
  | ".cb7" | ".7z" => extract7zMetadata cfg f d
  | ".cbz" => extractZipMetadata f d
  | _ => d

/-- The backend _extract_comic_archive_metadata dispatches to, as a
function of the path alone (the dispatch reads nothing else). -/
def extractComicArchiveBackend (path : String) : Backend :=
  match extLower path with
  | ".cbr" | ".rar" => Backend.rar
  | ".cb7" | ".7z" => Backend.sevenZip
  | ".cbz" => Backend.zip
  | _ => Backend.comicapi

/-! ## Cover pipeline -/

/-- The image-extension allowlist of ComicScanner.__init__. -/
def imageExts : List String := [".jpg", ".jpeg", ".png", ".gif", ".webp"]

/-- MIME type guessed from the extension in _process_image_data. -/
def mimeFromExt (name : String) : String :=
  match extLower name with
  | ".jpg" | ".jpeg" => "image/jpeg"
  | ".png" => "image/png"
  | ".gif" => "image/gif"
  | ".webp" => "image/webp"
  | _ => "application/octet-stream"

/-- Translation of _process_image_data: when PIL decodes, the thumbnail is
re-encoded as JPEG and the MIME type is image/jpeg; when PIL fails, the
original bytes are returned with the extension-guessed MIME type. -/
def processImageData (data : List Nat) (name : String)
    (pil : Option (List Nat)) : List Nat × String :=
  match pil with
  | some out => (out, "image/jpeg")
  | Option.none => (data, mimeFromExt name)

/-- Last character test for the directory-entry skip in _extract_zip_cover
(Python f.endswith slash). -/
def endsSlash (s : String) : Bool := s.toList.getLast? == some '/'

/-- Leading-dot test for the hidden-file skip. -/
def startsDot (s : String) : Bool :=
  match s.toList with
  | '.' :: _ => true
  | _ => false

/-- Candidate filter of _extract_zip_cover: skip directory entries and
entries whose basename starts with a dot, keep known image extensions, and
require the entry to be readable. -/
def zipCoverCandidates (entries : List AEntry) : List String :=
  (entries.filter
    (fun e => !endsSlash e.name && !startsDot (basenameStr e.name) &&
      imageExts.contains (extLower e.name) && e.readable)).map AEntry.name

/-- Candidate selection of _extract_zip_cover: filter, sort the names and
take the first. -/
def zipCoverSelect (entries : List AEntry) : Option String :=
  let imgs := zipCoverCandidates entries
  if imgs.isEmpty then Option.none else (sortStrs imgs).head?

/-- Candidate filter shared by _extract_rar_cover and _extract_7z_cover:
image extension only, with no hidden-file or directory skip. -/
def rarCoverCandidates (names : List String) : List String :=
  names.filter (fun n => imageExts.contains (extLower n))

/-- Candidate selection shared by _extract_rar_cover and _extract_7z_cover:
filter the name list by image extension only, sort, take the first. -/
def rarCoverSelect (names : List String) : Option String :=
  let imgs := rarCoverCandidates names
  if imgs.isEmpty then Option.none else (sortStrs imgs).head?

/-- Translation of _is_rar_file: the file exists, is a regular file, and
rarfile manages to open it. -/
def isRarFile (f : FsFile) : Bool := f.fexists && f.isFile && f.rarOk

/-- Translation of _extract_rar_cover: abort when the UnRAR tool is
reported missing or the archive does not open; otherwise select the first
sorted image entry, read it, and process the bytes. -/
def rarCover (cfg : ScannerCfg) (f : FsFile) : Option (List Nat × String) :=
  if cfg.unrarMissing then Option.none
  else if !f.rarOk then Option.none
  else if f.entries.isEmpty then Option.none
  else
    match rarCoverSelect (f.entries.map AEntry.name) with
    | Option.none => Option.none
    | some sel =>
      match f.entries.find? (fun e => e.name == sel) with
      | Option.none => Option.none
      | some e =>
        if !e.readable then Option.none
        else if e.data.isEmpty then Option.none
        else some (processImageData e.data sel e.pilJpeg)

/-- Translation of _extract_7z_cover. -/
def sevenZipCover (cfg : ScannerCfg) (f : FsFile) : Option (List Nat × String) :=
  if !cfg.p7zipAvailable then Option.none
  else if !f.sevenOk then Option.none
  else if f.entries.isEmpty then Option.none
  else
    match rarCoverSelect (f.entries.map AEntry.name) with
    | Option.none => Option.none
    | some sel =>
      match f.entries.find? (fun e => e.name == sel) with
      | Option.none => Option.none
      | some e =>
        if !e.readable then Option.none
        else if e.data.isEmpty then Option.none
        else some (processImageData e.data sel e.pilJpeg)

/-- Translation of _extract_zip_cover: filesystem guards, the mislabeled
archive redirect (a .cbz that rarfile opens is handed to the RAR cover
path), ZIP validity and integrity checks, then candidate selection and
processing. -/
def zipCover (cfg : ScannerCfg) (f : FsFile) : Option (List Nat × String) :=
  if !f.fexists then Option.none
  else if !f.isFile then Option.none
  else if f.size == 0 then Option.none
  else if isRarFile f then rarCover cfg f
  else if !f.isZipfile then Option.none
  else if !(f.zipOk && f.zipTestOk) then Option.none
  else
    match zipCoverSelect f.entries with
    | Option.none => Option.none
    | some sel =>
      match f.entries.find? (fun e => e.name == sel) with
      | Option.none => Option.none
      | some e =>
        if e.data.isEmpty then Option.none
        else some (processImageData e.data sel e.pilJpeg)

/-- Extension dispatch of _extract_archive_cover (lines 732-746): again by
lowercased extension only. -/
def extractArchiveCover (cfg : ScannerCfg) (f : FsFile) :
    Option (List Nat × String) :=
  match extLower f.path with
  | ".cbr" | ".rar" => rarCover cfg f
  | ".cbz" => zipCover cfg f
  | ".cb7" | ".7z" => sevenZipCover cfg f
  | _ => Option.none

/-- The backend _extract_archive_cover dispatches to, as a function of the
path alone. -/
def archiveCoverBackend (path : String) : Option Backend :=
  match extLower path with
  | ".cbr" | ".rar" => some Backend.rar
  | ".cbz" => some Backend.zip
  | ".cb7" | ".7z" => some Backend.sevenZip
  | _ => Option.none

/-- Translation of extract_cover_image: PDF pages go through the external
rasteriser and PIL (oracle pdfCoverJpeg); archive extensions go through
_extract_archive_cover; everything else yields nothing. -/
def extractCoverImage (cfg : ScannerCfg) (f : FsFile) :
    Option (List Nat × String) :=
  match extLower f.path with
  | ".pdf" => f.pdfCoverJpeg.map (fun b => (b, "image/jpeg"))
  | ".cbr" | ".cbz" | ".cb7" | ".7z" => extractArchiveCover cfg f
  | _ => Option.none

/-! ## Metadata extraction orchestration (extract_metadata, scan_file) -/

/-- The author-splitting of _extract_pdf_metadata: split the Author string
on semicolons, strip each part and keep the non-empty ones. -/
def splitAuthors (a : String) : List String :=
  ((splitOnChar ';' a.toList).map (fun cs => pyStrip (String.mk cs))).filter
    (fun s => s ≠ "")

/-- Translation of _extract_pdf_metadata: when pikepdf opens the file, the
truthy docinfo entries Title, Author, Producer and CreationDate update
title, authors, publisher and the sanity-bounded year; a failed open leaves
the metadata unchanged. -/
def pdfMeta (f : FsFile) (d : PyDict) : PyDict :=
  if !f.pdfOk then d
  else
    let d1 := match lookupTruthy f.pdfInfo "/Title" with
      | some t => dset d "title" (PyVal.str t)
      | Option.none => d
    let d2 := match lookupTruthy f.pdfInfo "/Author" with
      | some a => dset d1 "authors" (PyVal.strlist (splitAuthors a))
      | Option.none => d1
    let d3 := match lookupTruthy f.pdfInfo "/Producer" with
      | some p => dset d2 "publisher" (PyVal.str p)
      | Option.none => d2
    match lookupTruthy f.pdfInfo "/CreationDate" with
    | some v =>
      (match pdfCreationYear v with
       | some y => dset d3 "year" (PyVal.int y)
       | Option.none => d3)
    | Option.none => d3

/-- Backends touched by the metadata half of extract_metadata, following
its extension branches. -/
def metaTrace (cfg : ScannerCfg) (f : FsFile) : List Backend :=
  match extLower f.path with
  | ".pdf" => [Backend.pdf]
  | ".cbr" => [Backend.rar]
  | ".cbz" => [Backend.zip]
  | ".cb7" | ".7z" => if cfg.p7zipAvailable then [Backend.sevenZip] else []
  | _ => []

/-- Backends used for content reading by the cover half of
extract_metadata. -/
def coverTrace (cfg : ScannerCfg) (f : FsFile) : List Backend :=
  match extLower f.path with
  | ".pdf" => [Backend.pdf]
  | ".cbr" => if cfg.unrarMissing then [] else [Backend.rar]
  | ".cbz" =>
    if !f.fexists || !f.isFile || f.size == 0 then []
    else if isRarFile f then
      (if cfg.unrarMissing then [] else [Backend.rar])
    else [Backend.zip]
  | ".cb7" | ".7z" => if cfg.p7zipAvailable then [Backend.sevenZip] else []
  | _ => []

/-- The defaults dictionary extract_metadata builds from the filename
before any parsing. -/
def mdDefaults (f : FsFile) : PyDict :=
  [("title", PyVal.str (rootOf (basenameStr f.path))),
   ("year", PyVal.none),
   ("issue_number", PyVal.none),
   ("series", PyVal.none),
   ("subseries", PyVal.none),
   ("publisher", PyVal.none),
   ("authors", PyVal.strlist []),
   ("file_path", PyVal.str f.path),
   ("file_size", PyVal.int (Int.ofNat f.size)),
   ("file_modified", PyVal.float (PyFloat.finite f.mtime))]

/-- Translation of extract_metadata: seed defaults, run the filename
heuristic, dispatch the format-specific metadata step by extension, then
attach the cover when extraction produced non-empty bytes.  The second
component records which backends were used. -/
def extractMetadata (cfg : ScannerCfg) (f : FsFile) : PyDict × List Backend :=
  let ext := extLower f.path
  let d1 := parseFilenameDict (mdDefaults f)
  let d2 :=
    if ext == ".pdf" then pdfMeta f d1
    else if [".cbr", ".cbz", ".cb7", ".7z"].contains ext then
      extractComicArchiveMetadata cfg f d1
    else d1
  let d3 := match extractCoverImage cfg f with
    | some (bytes, mime) =>
      if bytes.isEmpty then d2
      else dset (dset d2 "cover_image" (PyVal.bytes bytes))
        "cover_image_type" (PyVal.str mime)
    | Option.none => d2
  (d3, metaTrace cfg f ++ coverTrace cfg f)

/-- Translation of scan_file: the guard chain (missing path, non-file,
empty file, unsupported extension) answers with an error dictionary before
any backend is consulted; only past the guards does extract_metadata
run. -/
def scanFile (cfg : ScannerCfg) (f : FsFile) : PyDict × List Backend :=
  if !f.fexists then
    ([("error", PyVal.str ("File not found: " ++ f.path))], [])
  else if !f.isFile then
    ([("error", PyVal.str ("Path is not a file: " ++ f.path))], [])
  else if f.size == 0 then
    ([("error", PyVal.str ("File is empty: " ++ f.path))], [])
  else if !isComicFile cfg f.path then
    ([("error", PyVal.str ("Unsupported file format: " ++ extOf f.path))], [])
  else
    let r := extractMetadata cfg f
    if r.1.isEmpty then
      ([("error", PyVal.str "Failed to extract metadata from file")], r.2)
    else r

/-! ## Scan session (ComicsPanel scan loop) -/

/-- Per-file outcome of db.add_comic_from_file inside the loop's local
try block: imported, returned false, or raised (the exception is caught and
logged, and the loop continues). -/
inductive FileOutcome where
  | ok
  | notAdded
  | raised
deriving DecidableEq

/-- Terminal observable of _scan_directory: the no-comics-found early
return, the normal path through _update_ui_after_scan with its processed
and imported arguments, or the except branch that reports a scan error.
The code has no terminal state distinguishing a stopped session from a
completed one. -/
inductive SessionResult where
  | noComics
  | finished (processed imported : Nat)
  | errorOut
deriving DecidableEq

/-- The file loop of _scan_directory: before each file the stop flag is
read (modelled as a function of how many files have been handed to storage
so far); when set, the loop breaks; otherwise the file is handed to the
database and counted when the insert reports success.  Returns the list of
files handed to storage and the imported count. -/
def scanLoop (db : String → FileOutcome) (stop : Nat → Bool) :
    List String → Nat → List String × Nat
  | [], _ => ([], 0)
  | fp :: rest, k =>
    if stop k then ([], 0)
    else
      let r := scanLoop db stop rest (k + 1)
      (fp :: r.1, (if db fp = FileOutcome.ok then 1 else 0) + r.2)

/-- Number of successful imports among a list of files. -/
def countOk (db : String → FileOutcome) (l : List String) : Nat :=
  (l.filter (fun fp => db fp == FileOutcome.ok)).length

/-- Translation of _scan_directory: an empty enumeration takes the
no-comics path; otherwise the loop runs and _update_ui_after_scan is called
with the total file count and the imported count, whether or not the loop
was stopped early. -/
def scanDirectoryRun (db : String → FileOutcome) (stop : Nat → Bool)
    (files : List String) : List String × SessionResult :=
  if files.isEmpty then ([], SessionResult.noComics)
  else
    let r := scanLoop db stop files 0
    (r.1, SessionResult.finished files.length r.2)

/-! ## The ComicMetadata dataclass (to_dict / from_dict)

The dataclass is dynamically typed in the source (setattr stores whatever
value the dictionary holds), so every field is modelled as a PyVal with the
dataclass defaults. -/

/-- The ComicMetadata dataclass with its field defaults. -/
structure CMeta where
  title : PyVal := PyVal.str ""
  series : PyVal := PyVal.none
  subseries : PyVal := PyVal.none
  issue_number : PyVal := PyVal.none
  volume : PyVal := PyVal.none
  year : PyVal := PyVal.none
  publisher : PyVal := PyVal.none
  authors : PyVal := PyVal.strlist []
  summary : PyVal := PyVal.none
  notes : PyVal := PyVal.none
  genre : PyVal := PyVal.none
  language : PyVal := PyVal.none
  web : PyVal := PyVal.none
  page_count : PyVal := PyVal.none
  format : PyVal := PyVal.none
  black_and_white : PyVal := PyVal.bool false
  manga : PyVal := PyVal.bool false
  characters : PyVal := PyVal.strlist []
  teams : PyVal := PyVal.strlist []
  locations : PyVal := PyVal.strlist []
  scan_info : PyVal := PyVal.none
  story_arc : PyVal := PyVal.none
  story_arc_number : PyVal := PyVal.none
  series_group : PyVal := PyVal.none
  alternate_series : PyVal := PyVal.none
  alternate_number : PyVal := PyVal.none
  alternate_count : PyVal := PyVal.none
  count : PyVal := PyVal.none
  age_rating : PyVal := PyVal.none
  community_rating : PyVal := PyVal.none
  main_character_or_team : PyVal := PyVal.none
  review : PyVal := PyVal.none
  file_path : PyVal := PyVal.none
  file_size : PyVal := PyVal.none
  file_modified : PyVal := PyVal.none
  cover_image : PyVal := PyVal.none
  cover_image_type : PyVal := PyVal.none
deriving DecidableEq

/-- Translation of ComicMetadata.to_dict: every field except cover_image,
in source order; cover_image_type is still emitted. -/
def toDictCM (m : CMeta) : PyDict :=
  [("title", m.title), ("series", m.series), ("subseries", m.subseries),
   ("issue_number", m.issue_number), ("volume", m.volume), ("year", m.year),
   ("publisher", m.publisher), ("authors", m.authors),
   ("summary", m.summary), ("notes", m.notes), ("genre", m.genre),
   ("language", m.language), ("web", m.web), ("page_count", m.page_count),
   ("format", m.format), ("black_and_white", m.black_and_white),
   ("manga", m.manga), ("characters", m.characters), ("teams", m.teams),
   ("locations", m.locations), ("scan_info", m.scan_info),
   ("story_arc", m.story_arc), ("story_arc_number", m.story_arc_number),
   ("series_group", m.series_group),
   ("alternate_series", m.alternate_series),
   ("alternate_number", m.alternate_number),
   ("alternate_count", m.alternate_count), ("count", m.count),
   ("age_rating", m.age_rating), ("community_rating", m.community_rating),
   ("main_character_or_team", m.main_character_or_team),
   ("review", m.review), ("file_path", m.file_path),
   ("file_size", m.file_size), ("file_modified", m.file_modified),
   ("cover_image_type", m.cover_image_type)]

/-- Python setattr on the dataclass, guarded by hasattr: unknown keys are
ignored. -/
def setattrCM (m : CMeta) (k : String) (v : PyVal) : CMeta :=
  if k = "title" then { m with title := v }
  else if k = "series" then { m with series := v }
  else if k = "subseries" then { m with subseries := v }
  else if k = "issue_number" then { m with issue_number := v }
  else if k = "volume" then { m with volume := v }
  else if k = "year" then { m with year := v }
  else if k = "publisher" then { m with publisher := v }
  else if k = "authors" then { m with authors := v }
  else if k = "summary" then { m with summary := v }
  else if k = "notes" then { m with notes := v }
  else if k = "genre" then { m with genre := v }
  else if k = "language" then { m with language := v }
  else if k = "web" then { m with web := v }
  else if k = "page_count" then { m with page_count := v }
  else if k = "format" then { m with format := v }
  else if k = "black_and_white" then { m with black_and_white := v }
  else if k = "manga" then { m with manga := v }
  else if k = "characters" then { m with characters := v }
  else if k = "teams" then { m with teams := v }
  else if k = "locations" then { m with locations := v }
  else if k = "scan_info" then { m with scan_info := v }
  else if k = "story_arc" then { m with story_arc := v }
  else if k = "story_arc_number" then { m with story_arc_number := v }
  else if k = "series_group" then { m with series_group := v }
  else if k = "alternate_series" then { m with alternate_series := v }
  else if k = "alternate_number" then { m with alternate_number := v }
  else if k = "alternate_count" then { m with alternate_count := v }
  else if k = "count" then { m with count := v }
  else if k = "age_rating" then { m with age_rating := v }
  else if k = "community_rating" then { m with community_rating := v }
  else if k = "main_character_or_team" then { m with main_character_or_team := v }
  else if k = "review" then { m with review := v }
  else if k = "file_path" then { m with file_path := v }
  else if k = "file_size" then { m with file_size := v }
  else if k = "file_modified" then { m with file_modified := v }
  else if k = "cover_image" then { m with cover_image := v }
  else if k = "cover_image_type" then { m with cover_image_type := v }
  else m

/-- Translation of ComicMetadata.from_dict: start from a fresh instance
and set every attribute present in the dictionary. -/
def fromDictCM (d : PyDict) : CMeta :=
  d.foldl (fun m p => setattrCM m p.1 p.2) {}

/-- The cover pairing invariant claimed for ComicMetadata records:
cover_image and cover_image_type are both absent or both present. -/
def coverPairOk (m : CMeta) : Prop :=
  m.cover_image = PyVal.none ↔ m.cover_image_type = PyVal.none

/-! Concrete fixtures used by the claim theorems and witnesses. -/

/-- Standard host configuration: py7zr importable, UnRAR tool present. -/
def cfgStd : ScannerCfg := ⟨true, false⟩

/-- A zero-byte file with a supported extension. -/
def fEmptyCbz : FsFile :=
  ⟨"/comics/empty.cbz", true, true, 0, 0, [], [], true, true, true, false,
   false, false, [], Option.none⟩

/-- A well-formed plain .zip comic archive. -/
def fPlainZip : FsFile :=
  ⟨"/comics/book.zip", true, true, 9, 0, [0x50, 0x4B, 0x03, 0x04], [], true,
   true, true, false, false, false, [], Option.none⟩

/-- A file carrying the ZIP local-file-header magic but named .cbr: the
mislabeled-archive case of the specification. -/
def fMislabeledCbr : FsFile :=
  ⟨"/comics/mislabeled.cbr", true, true, 9, 0, [0x50, 0x4B, 0x03, 0x04],
   [⟨"page1.jpg", true, [9], Option.none, some [7]⟩], true, true, true,
   false, false, false, [], Option.none⟩

/-- Archive entries for the cover-selection fixture of the specification:
img002.jpg, IMG001.PNG and cover.gif, all readable, with PIL succeeding. -/
def coverEntries : List AEntry :=
  [⟨"img002.jpg", true, [1], Option.none, some [11]⟩,
   ⟨"IMG001.PNG", true, [2], Option.none, some [22]⟩,
   ⟨"cover.gif", true, [3], Option.none, some [33]⟩]

/-- A .cbr archive holding the cover-selection fixture entries, opened
successfully by rarfile. -/
def fRarCovers : FsFile :=
  ⟨"/comics/covers.cbr", true, true, 9, 0, [0x52, 0x61, 0x72, 0x21],
   coverEntries, false, false, false, true, false, false, [], Option.none⟩

/-- A .cb7 archive holding the cover-selection fixture entries, opened
successfully by py7zr. -/
def fSevenCovers : FsFile :=
  ⟨"/comics/covers.cb7", true, true, 9, 0, [0x37, 0x7A], coverEntries,
   false, false, false, false, true, false, [], Option.none⟩

/-- A .cbz archive holding the cover-selection fixture entries, a valid
ZIP that rarfile cannot open. -/
def fZipCovers : FsFile :=
  ⟨"/comics/covers.cbz", true, true, 9, 0, [0x50, 0x4B, 0x03, 0x04],
   coverEntries, true, true, true, false, false, false, [], Option.none⟩

/-- Archive entries containing a dot-prefixed image next to a regular
one. -/
def dotEntries : List AEntry :=
  [⟨".sneaky.jpg", true, [1], Option.none, some [44]⟩,
   ⟨"page1.jpg", true, [2], Option.none, some [55]⟩]

/-- The filename-heuristic fixture of the specification. -/
def fAmazing : FsFile :=
  ⟨"/comics/Amazing Tales - 007 (1998).cbz", true, true, 9, 0,
   [0x50, 0x4B, 0x03, 0x04], [], true, true, true, false, false, false, [],
   Option.none⟩

/-- Storage collaborator for which every insert succeeds. -/
def dbAllOk : String → FileOutcome := fun _ => FileOutcome.ok

/-- Storage collaborator for which the file b is not added. -/
def dbSkipB : String → FileOutcome :=
  fun fp => if fp = "b" then FileOutcome.notAdded else FileOutcome.ok

/-- Stop flag raised once one file has been processed. -/
def stopAfterOne : Nat → Bool := fun k => decide (1 ≤ k)

/-- Stop flag that is never raised. -/
def stopNever : Nat → Bool := fun _ => false

/-- A ComicMetadata record whose cover pairing holds with the cover
present. -/
def mWithCover : CMeta :=
  { cover_image := PyVal.bytes [1, 2, 3],
    cover_image_type := PyVal.str "image/jpeg" }

/-! Supporting lemmas about the embedded operations. -/

theorem lexLe_refl (a : List Char) : lexLe a a = true := by
  induction a with
  | nil => rfl
  | cons c cs ih => simp [lexLe, ih]

theorem lexLe_total (a b : List Char) : lexLe a b = true ∨ lexLe b a = true := by
  induction a generalizing b with
  | nil => left; rfl
  | cons c cs ih =>
    cases b with
    | nil => right; rfl
    | cons d ds =>
      by_cases h : c.toNat = d.toNat
      · have h2 : d.toNat = c.toNat := h.symm
        rcases ih ds with h3 | h3
        · left; simp [lexLe, h, h3]
        · right; simp [lexLe, h2, h3]
      · have h2 : d.toNat ≠ c.toNat := fun e => h e.symm
        rcases Nat.lt_or_ge c.toNat d.toNat with h3 | h3
        · left; simp [lexLe, h, h3]
        · right
          have h4 : d.toNat < c.toNat := Nat.lt_of_le_of_ne h3 h2
          simp [lexLe, h2, h4]

theorem lexLe_trans (a b c : List Char) (hab : lexLe a b = true)
    (hbc : lexLe b c = true) : lexLe a c = true := by
  induction a generalizing b c with
  | nil => rfl
  | cons x xs ih =>
    cases b with
    | nil => simp [lexLe] at hab
    | cons y ys =>
      cases c with
      | nil => simp [lexLe] at hbc
      | cons z zs =>
        by_cases h1 : x.toNat = y.toNat
        · by_cases h2 : y.toNat = z.toNat
          · have h3 : x.toNat = z.toNat := h1.trans h2
            simp [lexLe, h1] at hab
            simp [lexLe, h2] at hbc
            simp [lexLe, h3, ih ys zs hab hbc]
          · simp [lexLe, h2] at hbc
            have h3 : x.toNat < z.toNat := h1 ▸ hbc
            have h4 : x.toNat ≠ z.toNat := Nat.ne_of_lt h3
            simp [lexLe, h4, h3]
        · simp [lexLe, h1] at hab
          by_cases h2 : y.toNat = z.toNat
          · have h3 : x.toNat < z.toNat := h2 ▸ hab
            simp [lexLe, Nat.ne_of_lt h3, h3]
          · simp [lexLe, h2] at hbc
            have h3 : x.toNat < z.toNat := Nat.lt_trans hab hbc
            simp [lexLe, Nat.ne_of_lt h3, h3]

theorem strLe_refl (a : String) : strLe a a = true := lexLe_refl _

theorem strLe_total (a b : String) : strLe a b = true ∨ strLe b a = true :=
  lexLe_total _ _

theorem strLe_trans (a b c : String) (hab : strLe a b = true)
    (hbc : strLe b c = true) : strLe a c = true :=
  lexLe_trans _ _ _ hab hbc

theorem insSorted_perm (x : String) (l : List String) :
    (insSorted x l).Perm (x :: l) := by
  induction l with
  | nil => simp [insSorted]
  | cons y ys ih =>
    by_cases h : strLe x y = true
    · simp [insSorted, h]
    · simp only [insSorted, h, if_false]
      exact ((ih.cons y).trans (List.Perm.swap x y ys))

theorem sortStrs_perm (l : List String) : (sortStrs l).Perm l := by
  induction l with
  | nil => simp [sortStrs]
  | cons x xs ih =>
    exact (insSorted_perm x (sortStrs xs)).trans (ih.cons x)

theorem insSorted_sorted (x : String) (l : List String)
    (h : l.Pairwise (fun a b => strLe a b = true)) :
    (insSorted x l).Pairwise (fun a b => strLe a b = true) := by
  induction l with
  | nil => simp [insSorted]
  | cons y ys ih =>
    rcases List.pairwise_cons.mp h with ⟨hy, hys⟩
    by_cases hxy : strLe x y = true
    · rw [insSorted, if_pos hxy]
      refine List.pairwise_cons.mpr ⟨?_, h⟩
      intro b hb
      rcases List.mem_cons.mp hb with hb | hb
      · exact hb ▸ hxy
      · exact strLe_trans x y b hxy (hy b hb)
    · have hyx : strLe y x = true := by
        rcases strLe_total x y with h1 | h1
        · exact absurd h1 hxy
        · exact h1
      rw [insSorted, if_neg hxy]
      refine List.pairwise_cons.mpr ⟨?_, ih hys⟩
      intro b hb
      have hmem : b ∈ x :: ys := (insSorted_perm x ys).mem_iff.mp hb
      rcases List.mem_cons.mp hmem with hb2 | hb2
      · exact hb2 ▸ hyx
      · exact hy b hb2

theorem sortStrs_sorted (l : List String) :
    (sortStrs l).Pairwise (fun a b => strLe a b = true) := by
  induction l with
  | nil => simp [sortStrs]
  | cons x xs ih => exact insSorted_sorted x (sortStrs xs) ih

/-- The first element of the sorted list is a minimum of the original
list. -/
theorem sortStrs_head_min (l : List String) (c : String) (t : List String)
    (h : sortStrs l = c :: t) :
    c ∈ l ∧ ∀ x ∈ l, strLe c x = true := by
  have hperm := sortStrs_perm l
  rw [h] at hperm
  constructor
  · exact hperm.mem_iff.mp (List.mem_cons_self c t)
  · intro x hx
    have hx2 : x ∈ c :: t := hperm.mem_iff.mpr hx
    rcases List.mem_cons.mp hx2 with hx3 | hx3
    · exact hx3 ▸ strLe_refl c
    · have hs := sortStrs_sorted l
      rw [h] at hs
      exact (List.pairwise_cons.mp hs).1 x hx3

theorem dget_dset_self (d : PyDict) (k : String) (v : PyVal) :
    dget (dset d k v) k = some v := by
  induction d with
  | nil => simp [dset, dget]
  | cons p rest ih =>
    by_cases h : p.1 = k
    · simp [dset, dget, h]
    · simp [dset, dget, h, ih]

theorem dget_dset_ne (d : PyDict) (k k2 : String) (v : PyVal)
    (h : k ≠ k2) : dget (dset d k v) k2 = dget d k2 := by
  induction d with
  | nil => simp [dset, dget, h]
  | cons p rest ih =>
    by_cases h2 : p.1 = k
    · simp [dset, dget, h2, h]
    · simp [dset, dget, h2, ih]

/-- The key of the first entry is unchanged by assignment into a non-empty
dictionary. -/
theorem dset_firstKey (d : PyDict) (k : String) (v : PyVal) (hd : d ≠ []) :
    (dset d k v).head?.map Prod.fst = d.head?.map Prod.fst := by
  cases d with
  | nil => exact absurd rfl hd
  | cons p rest =>
    by_cases h : p.1 = k
    · simp [dset, h]
    · simp [dset, h]


theorem pyDigit_le (c : Char) (h : pyIsDigit c = true) : digitToNat c ≤ 9 := by
  unfold pyIsDigit at h
  unfold digitToNat
  simp only [Bool.and_eq_true, decide_eq_true_eq] at h
  omega

/-- Any year captured by the filename heuristic's regex comes from four
digits and is therefore at most 9999 (and in particular unconstrained by
the 1900 to 2100 bounds). -/
theorem findYear_bound : ∀ (cs g : List Char) (y : Nat),
    findYearChars cs = some (g, y) → y ≤ 9999 := by
  intro cs
  induction cs using findYearChars.induct with
  | case1 =>
    intro g y h
    simp [findYearChars] at h
  | case2 a b c2 d tail hd =>
    intro g y h
    simp only [findYearChars, hd, if_true] at h
    simp only [Bool.and_eq_true] at hd
    have ha := pyDigit_le a hd.1.1.1
    have hb := pyDigit_le b hd.1.1.2
    have hc := pyDigit_le c2 hd.1.2
    have hdd := pyDigit_le d hd.2
    have h2 : y = ((digitToNat a * 10 + digitToNat b) * 10 + digitToNat c2)
        * 10 + digitToNat d := by
      cases h
      rfl
    omega
  | case3 a b c2 d tail hd ih =>
    intro g y h
    simp only [findYearChars, hd, if_false] at h
    exact ih g y h
  | case4 rest hne ih =>
    intro g y h
    rw [findYearChars] at h
    simp only [if_pos rfl] at h
    split at h
    · exact ih g y h
    · exact ih g y h
    · exact hne
  | case5 c rest hc ih =>
    intro g y h
    simp only [findYearChars, hc, if_false] at h
    exact ih g y h

/-- The PDF creation-date path only ever yields a year within the sanity
bounds, because the bound check guards the assignment. -/
theorem pdfYear_bound (s : String) (y : Int) (h : pdfCreationYear s = some y) :
    1900 ≤ y ∧ y ≤ 2100 := by
  unfold pdfCreationYear at h
  split at h
  · split at h
    · split at h
      · injection h with h2
        subst h2
        assumption
      · simp at h
    · simp at h
  · simp at h

/-- A cover selected by the ZIP path is one of the filtered candidates and
is lexicographically least among them. -/
theorem zipSelect_min (entries : List AEntry) (c : String)
    (h : zipCoverSelect entries = some c) :
    c ∈ zipCoverCandidates entries ∧
      ∀ x ∈ zipCoverCandidates entries, strLe c x = true := by
  unfold zipCoverSelect at h
  by_cases he : (zipCoverCandidates entries).isEmpty
  · simp [he] at h
  · simp only [he, if_false, Bool.false_eq_true] at h
    cases hs : sortStrs (zipCoverCandidates entries) with
    | nil => rw [hs] at h; simp at h
    | cons c0 t =>
      rw [hs] at h
      simp only [List.head?] at h
      injection h with h2
      subst h2
      exact sortStrs_head_min _ c0 t hs

/-- A cover selected by the RAR and 7z path is one of the
extension-filtered candidates and is lexicographically least among
them. -/
theorem rarSelect_min (names : List String) (c : String)
    (h : rarCoverSelect names = some c) :
    c ∈ rarCoverCandidates names ∧
      ∀ x ∈ rarCoverCandidates names, strLe c x = true := by
  unfold rarCoverSelect at h
  by_cases he : (rarCoverCandidates names).isEmpty
  · simp [he] at h
  · simp only [he, if_false, Bool.false_eq_true] at h
    cases hs : sortStrs (rarCoverCandidates names) with
    | nil => rw [hs] at h; simp at h
    | cons c0 t =>
      rw [hs] at h
      simp only [List.head?] at h
      injection h with h2
      subst h2
      exact sortStrs_head_min _ c0 t hs

/-- Closed form of the scan loop under a stop flag that is raised once n
files have been handed to storage: exactly the first n files are
processed. -/
theorem scanLoop_take (db : String → FileOutcome) (n : Nat) :
    ∀ (files : List String) (k : Nat),
      scanLoop db (fun j => decide (n ≤ j)) files k
        = (files.take (n - k), countOk db (files.take (n - k))) := by
  intro files
  induction files with
  | nil => intro k; simp [scanLoop, countOk]
  | cons fp rest ih =>
    intro k
    by_cases hk : n ≤ k
    · have hz : n - k = 0 := Nat.sub_eq_zero_of_le hk
      simp [scanLoop, hk, hz, countOk]
    · have hs : n - k = (n - (k + 1)) + 1 := by omega
      rw [scanLoop]
      simp only [hk, decide_eq_true_eq, if_false]
      rw [ih (k + 1), hs]
      simp only [List.take_succ_cons]
      unfold countOk
      simp only [List.filter_cons]
      by_cases hdb : db fp = FileOutcome.ok
      · simp [hdb, Nat.add_comm]
      · simp [hdb]

/-! Claim theorems. -/

/-- C1 counterexample: the file mislabeled.cbr starts with the ZIP
local-file-header magic PK backslash-x03 backslash-x04, yet both the
sidecar-metadata dispatch and the cover dispatch hand it to the Rar
backend, not the Zip backend — extension-based dispatch ignores the
signature, so the claimed mislabel correction does not happen for .cbr
files. -/
theorem C1_counterexample :
    fMislabeledCbr.header.take 4 = zipMagic ∧
    extLower fMislabeledCbr.path = ".cbr" ∧
    extractComicArchiveBackend fMislabeledCbr.path = Backend.rar ∧
    archiveCoverBackend fMislabeledCbr.path = some Backend.rar ∧
    Backend.rar ≠ Backend.zip := by
  refine ⟨by decide, by decide, by decide, by decide, by decide⟩

/-- C1 amended: dispatch is by lowercased extension alone, so every .cbr
file — whatever its first bytes — is handled by the Rar backend for both
sidecar metadata and cover extraction; the only signature-derived
correction in the code is the reverse direction, inside ZIP cover
extraction, where a .cbz that rarfile recognises as a RAR archive is
redirected to the RAR cover path. -/
theorem C1_amended :
    (∀ f : FsFile, extLower f.path = ".cbr" →
      extractComicArchiveBackend f.path = Backend.rar ∧
      archiveCoverBackend f.path = some Backend.rar) ∧
    (∀ (cfg : ScannerCfg) (f : FsFile), extLower f.path = ".cbz" →
      f.size ≠ 0 → isRarFile f = true → zipCover cfg f = rarCover cfg f) := by
  constructor
  · intro f h
    constructor
    · unfold extractComicArchiveBackend
      rw [h]
      decide
    · unfold archiveCoverBackend
      rw [h]
      decide
  · intro cfg f hext hsz hrar
    have h3 : f.fexists = true ∧ f.isFile = true ∧ f.rarOk = true := by
      unfold isRarFile at hrar
      simp only [Bool.and_eq_true] at hrar
      exact ⟨hrar.1.1, hrar.1.2, hrar.2⟩
    unfold zipCover
    simp [h3.1, h3.2.1, hsz, hrar]

/-- C1 amended witness: the amended statement instantiated at the
mislabeled .cbr fixture and at a .cbz fixture that rarfile opens. -/
theorem C1_amended_witness :
    (extractComicArchiveBackend fMislabeledCbr.path = Backend.rar ∧
      archiveCoverBackend fMislabeledCbr.path = some Backend.rar) ∧
    zipCover cfgStd ⟨"/comics/actually-rar.cbz", true, true, 9, 0,
      [0x52, 0x61, 0x72, 0x21], dotEntries, false, false, false, true,
      false, false, [], Option.none⟩
      = rarCover cfgStd ⟨"/comics/actually-rar.cbz", true, true, 9, 0,
      [0x52, 0x61, 0x72, 0x21], dotEntries, false, false, false, true,
      false, false, [], Option.none⟩ :=
  ⟨C1_amended.1 fMislabeledCbr (by decide),
   C1_amended.2 cfgStd _ (by decide) (by decide) (by decide)⟩

/-- C2 counterexample: a ComicInfo.xml whose PageCount tag reads abc does
not leave the field untouched — the parser stores the raw unparsed text
abc in page_count, contradicting the silent-drop claim for the
integer-typed fields. -/
theorem C2_counterexample :
    parseComicInfoXml (some [⟨"PageCount", some "abc"⟩]) []
      = [("page_count", PyVal.str "abc")] ∧
    dget ([] : PyDict) "page_count" = Option.none := by
  refine ⟨by decide, by decide⟩

/-- C2 amended: only the Year field is silently dropped when its text
fails to parse; PageCount, AlternateCount and Count (like AlternateNumber
and CommunityRating) fall back to storing the raw unparsed text, and
Volume is never numerically parsed at all — it always stores the raw
text. -/
theorem C2_amended (t : String) (d : PyDict) (h1 : t ≠ "")
    (h2 : pyIntOfStr t = Option.none) (h3 : pyFloatOfStr t = Option.none) :
    parseComicInfoXml (some [⟨"Year", some t⟩]) d = d ∧
    dget (parseComicInfoXml (some [⟨"PageCount", some t⟩]) d) "page_count"
      = some (PyVal.str t) ∧
    dget (parseComicInfoXml (some [⟨"AlternateCount", some t⟩]) d)
      "alternate_count" = some (PyVal.str t) ∧
    dget (parseComicInfoXml (some [⟨"Count", some t⟩]) d) "count"
      = some (PyVal.str t) ∧
    dget (parseComicInfoXml (some [⟨"Volume", some t⟩]) d) "volume"
      = some (PyVal.str t) := by
  refine ⟨?_, ?_, ?_, ?_, ?_⟩
  · simp [parseComicInfoXml, tagMapping, ciStep, xfind, typedAssign,
      collectCreators, creatorTags, xfindall, h1, h2]
  · by_cases hdot : t.toList.contains '.'
    · simp [parseComicInfoXml, tagMapping, ciStep, xfind, typedAssign,
        collectCreators, creatorTags, xfindall, h1, h2, h3, hdot,
        dget_dset_self]
    · simp [parseComicInfoXml, tagMapping, ciStep, xfind, typedAssign,
        collectCreators, creatorTags, xfindall, h1, h2, h3, hdot,
        dget_dset_self]
  · by_cases hdot : t.toList.contains '.'
    · simp [parseComicInfoXml, tagMapping, ciStep, xfind, typedAssign,
        collectCreators, creatorTags, xfindall, h1, h2, h3, hdot,
        dget_dset_self]
    · simp [parseComicInfoXml, tagMapping, ciStep, xfind, typedAssign,
        collectCreators, creatorTags, xfindall, h1, h2, h3, hdot,
        dget_dset_self]
  · by_cases hdot : t.toList.contains '.'
    · simp [parseComicInfoXml, tagMapping, ciStep, xfind, typedAssign,
        collectCreators, creatorTags, xfindall, h1, h2, h3, hdot,
        dget_dset_self]
    · simp [parseComicInfoXml, tagMapping, ciStep, xfind, typedAssign,
        collectCreators, creatorTags, xfindall, h1, h2, h3, hdot,
        dget_dset_self]
  · simp [parseComicInfoXml, tagMapping, ciStep, xfind, typedAssign,
      collectCreators, creatorTags, xfindall, h1, dget_dset_self]

/-- C2 amended witness: the amended statement at the unparsable text abc
against an empty seed. -/
theorem C2_amended_witness :
    parseComicInfoXml (some [⟨"Year", some "abc"⟩]) ([] : PyDict) = [] ∧
    dget (parseComicInfoXml (some [⟨"PageCount", some "abc"⟩]) [])
      "page_count" = some (PyVal.str "abc") ∧
    dget (parseComicInfoXml (some [⟨"AlternateCount", some "abc"⟩]) [])
      "alternate_count" = some (PyVal.str "abc") ∧
    dget (parseComicInfoXml (some [⟨"Count", some "abc"⟩]) []) "count"
      = some (PyVal.str "abc") ∧
    dget (parseComicInfoXml (some [⟨"Volume", some "abc"⟩]) []) "volume"
      = some (PyVal.str "abc") :=
  C2_amended "abc" [] (by decide) (by decide) (by decide)

/-- C3 counterexample: a sidecar Year of 1500 is stored as the year
without any bound check, and the filename heuristic stores 1850 from a
parenthesised year, both violating the claimed 1900 to 2100 invariant —
only the PDF creation-date path enforces the bounds. -/
theorem C3_counterexample :
    parseComicInfoXml (some [⟨"Year", some "1500"⟩]) []
      = [("year", PyVal.int 1500)] ∧
    ¬(1900 ≤ (1500 : Int)) ∧
    dget (parseFilenameDict [("file_path", PyVal.str "/x/Foo (1850).cbz")])
      "year" = some (PyVal.int 1850) ∧
    ¬(1900 ≤ (1850 : Int)) := by
  refine ⟨by decide, by decide, by decide, by decide⟩

/-- C3 amended: the 1900 to 2100 sanity bound is enforced only on the PDF
creation-date path; the filename heuristic constrains a captured year only
to its four digits (at most 9999), and the sidecar parser stores any
integer Year verbatim. -/
theorem C3_amended :
    (∀ (s : String) (y : Int), pdfCreationYear s = some y →
      1900 ≤ y ∧ y ≤ 2100) ∧
    (∀ (cs g : List Char) (y : Nat), findYearChars cs = some (g, y) →
      y ≤ 9999) :=
  ⟨fun s y h => pdfYear_bound s y h, findYear_bound⟩

/-- C3 amended witness: the amended statement at a concrete PDF creation
date and at the characters of the Amazing Tales fixture name. -/
theorem C3_amended_witness :
    (1900 ≤ (2012 : Int) ∧ (2012 : Int) ≤ 2100) ∧ (1998 : Nat) ≤ 9999 :=
  ⟨C3_amended.1 "D:20120314120000" 2012 (by decide),
   C3_amended.2 "Amazing Tales - 007 (1998)".toList
     ['(', '1', '9', '9', '8', ')'] 1998 (by decide)⟩

/-- C4 counterexample: the RAR (and 7z) cover path keeps an entry whose
basename starts with a dot and selects it, while the ZIP path excludes it;
the claimed backend-uniform hidden-file filter does not exist. -/
theorem C4_counterexample :
    rarCoverSelect [".sneaky.jpg", "page1.jpg"] = some ".sneaky.jpg" ∧
    startsDot (basenameStr ".sneaky.jpg") = true ∧
    rarCover cfgStd ⟨"/comics/dot.cbr", true, true, 9, 0, [], dotEntries,
      false, false, false, true, false, false, [], Option.none⟩
      = some ([44], "image/jpeg") ∧
    zipCoverSelect dotEntries = some "page1.jpg" := by
  refine ⟨by decide, by decide, by decide, by decide⟩

/-- C4 amended: all backends sort the image-extension candidates
lexicographically and take the first, and on the fixture entries
img002.jpg, IMG001.PNG, cover.gif every backend selects IMG001.PNG; but
the exclusion of dot-prefixed basenames (and directory entries) happens
only in the ZIP backend — the RAR and 7z paths filter by extension
alone. -/
theorem C4_amended :
    zipCoverSelect coverEntries = some "IMG001.PNG" ∧
    rarCoverSelect (coverEntries.map AEntry.name) = some "IMG001.PNG" ∧
    rarCover cfgStd fRarCovers = some ([22], "image/jpeg") ∧
    sevenZipCover cfgStd fSevenCovers = some ([22], "image/jpeg") ∧
    zipCover cfgStd fZipCovers = some ([22], "image/jpeg") ∧
    (∀ l : List String, (sortStrs l).Perm l) ∧
    (∀ (entries : List AEntry) (c : String),
      zipCoverSelect entries = some c →
        c ∈ zipCoverCandidates entries ∧
        ∀ x ∈ zipCoverCandidates entries, strLe c x = true) ∧
    (∀ (names : List String) (c : String),
      rarCoverSelect names = some c →
        c ∈ rarCoverCandidates names ∧
        ∀ x ∈ rarCoverCandidates names, strLe c x = true) := by
  refine ⟨by decide, by decide, by decide, by decide, by decide,
    sortStrs_perm, zipSelect_min, rarSelect_min⟩

/-- C4 amended witness: the minimality statements instantiated at the
fixture entries. -/
theorem C4_amended_witness :
    ("IMG001.PNG" ∈ zipCoverCandidates coverEntries ∧
      ∀ x ∈ zipCoverCandidates coverEntries, strLe "IMG001.PNG" x = true) ∧
    (".sneaky.jpg" ∈ rarCoverCandidates [".sneaky.jpg", "page1.jpg"] ∧
      ∀ x ∈ rarCoverCandidates [".sneaky.jpg", "page1.jpg"],
        strLe ".sneaky.jpg" x = true) :=
  ⟨(C4_amended.2.2.2.2.2.2.1) coverEntries "IMG001.PNG" (by decide),
   (C4_amended.2.2.2.2.2.2.2) [".sneaky.jpg", "page1.jpg"] ".sneaky.jpg"
     (by decide)⟩

/-- C5: a zero-byte file of a supported extension is answered by scan_file
with the empty-file error before any extraction, and no archive backend is
opened or read for it. -/
theorem C5_empty_file (cfg : ScannerCfg) (f : FsFile) (h1 : f.fexists = true)
    (h2 : f.isFile = true) (h3 : f.size = 0)
    (h4 : isComicFile cfg f.path = true) :
    scanFile cfg f = ([("error", PyVal.str ("File is empty: " ++ f.path))],
      []) := by
  unfold scanFile
  simp [h1, h2, h3]

/-- C5 witness: the empty-file theorem at a concrete zero-byte .cbz. -/
theorem C5_empty_file_witness :
    scanFile cfgStd fEmptyCbz
      = ([("error", PyVal.str "File is empty: /comics/empty.cbz")], []) :=
  C5_empty_file cfgStd fEmptyCbz (by decide) (by decide) (by decide)
    (by decide)

/-- C6 counterexample: .zip and .rar are missing from supported_formats,
so a plain .zip file is not recognised by is_comic_file, is not discovered
by a directory scan, and is rejected by scan_file with the
unsupported-format error, although the claim lists both among the accepted
container extensions. -/
theorem C6_counterexample :
    ".zip" ∈ [".cbz", ".zip", ".cbr", ".rar", ".cb7", ".7z", ".pdf"] ∧
    isComicFile cfgStd "/comics/book.zip" = false ∧
    isComicFile cfgStd "/comics/book.rar" = false ∧
    scanDirectoryFilter cfgStd ["a.zip", "b.rar"] = [] ∧
    scanFile cfgStd fPlainZip
      = ([("error", PyVal.str "Unsupported file format: .zip")], []) := by
  refine ⟨by decide, by decide, by decide, by decide, by decide⟩

/-- C6 amended: the accepted container extensions are .cbr, .cbz, .cbt,
.cb7, .7z and .pdf, with .7z dropped when py7zr is unavailable; .zip and
.rar are not accepted.  Accepted files are discovered by the directory
scan and pass scan_file without an unsupported-format error. -/
theorem C6_amended :
    (∀ (u : Bool) (path : String), isComicFile ⟨true, u⟩ path = true ↔
      extLower path ∈ [".cbr", ".cbz", ".cbt", ".cb7", ".7z", ".pdf"]) ∧
    (∀ (u : Bool) (path : String), isComicFile ⟨false, u⟩ path = true ↔
      extLower path ∈ [".cbr", ".cbz", ".cbt", ".cb7", ".pdf"]) ∧
    scanDirectoryFilter cfgStd
      ["a.cbz", "b.zip", "c.rar", "d.pdf", "e.cbr", "f.cb7", "g.7z", "h.cbt"]
      = ["a.cbz", "d.pdf", "e.cbr", "f.cb7", "g.7z", "h.cbt"] ∧
    dget (scanFile cfgStd fZipCovers).1 "error" = Option.none := by
  refine ⟨?_, ?_, by decide, by decide⟩
  · intro u path
    unfold isComicFile supportedFormats
    simp [List.elem_iff]
  · intro u path
    unfold isComicFile supportedFormats
    simp [List.elem_iff]

/-- C7: on the fixture Amazing Tales - 007 (1998).cbz the filename
heuristic yields year 1998, issue number 007 and the trimmed remainder
Amazing Tales - (with its trailing hyphen) as both series and title; in
general the parser first captures and removes the parenthesised four-digit
year, then the delimiter-bounded digit run, and always assigns the same
trimmed remainder to series and title. -/
theorem C7_filename_heuristic :
    dget (parseFilenameDict (mdDefaults fAmazing)) "year"
      = some (PyVal.int 1998) ∧
    dget (parseFilenameDict (mdDefaults fAmazing)) "issue_number"
      = some (PyVal.str "007") ∧
    dget (parseFilenameDict (mdDefaults fAmazing)) "series"
      = some (PyVal.str "Amazing Tales -") ∧
    dget (parseFilenameDict (mdDefaults fAmazing)) "title"
      = some (PyVal.str "Amazing Tales -") ∧
    (∀ (p : String) (d : PyDict), dget d "file_path" = some (PyVal.str p) →
      dget (parseFilenameDict d) "series" = dget (parseFilenameDict d) "title") := by
  refine ⟨by decide, by decide, by decide, by decide, ?_⟩
  intro p d h
  unfold parseFilenameDict
  rw [h]
  rw [dget_dset_self, dget_dset_ne _ _ _ _ (by decide), dget_dset_self]

/-- C7 witness: the universal series-equals-title clause at the fixture
seed. -/
theorem C7_filename_heuristic_witness :
    dget (parseFilenameDict (mdDefaults fAmazing)) "series"
      = dget (parseFilenameDict (mdDefaults fAmazing)) "title" :=
  C7_filename_heuristic.2.2.2.2 "/comics/Amazing Tales - 007 (1998).cbz"
    (mdDefaults fAmazing) (by decide)

/-- C8: parsing a ComicInfo.xml holding Year 2012 and Writer Jane Doe
against a blank seed yields year 2012 and authors Jane Doe (writer), and
each of the seven creator tags is rendered into authors as Name (role)
with its role string. -/
theorem C8_sidecar_roundtrip :
    parseComicInfoXml (some [⟨"Year", some "2012"⟩, ⟨"Writer", some "Jane Doe"⟩])
      [] = [("year", PyVal.int 2012),
            ("authors", PyVal.strlist ["Jane Doe (writer)"])] ∧
    parseComicInfoXml (some [⟨"Writer", some "W"⟩, ⟨"Penciller", some "P"⟩,
      ⟨"Inker", some "I"⟩, ⟨"Colorist", some "C"⟩, ⟨"Letterer", some "L"⟩,
      ⟨"CoverArtist", some "V"⟩, ⟨"Editor", some "E"⟩]) []
      = [("authors", PyVal.strlist ["W (writer)", "P (penciller)",
          "I (inker)", "C (colorist)", "L (letterer)", "V (cover_artist)",
          "E (editor)"])] := by
  refine ⟨by decide, by decide⟩

/-- C9 counterexample: stopping after one of two files hands exactly the
first file to storage, but the session then performs the very same
completion UI update (processed two, imported one) that an unstopped
session performs when its second insert merely fails — the code has no
Stopped terminal state distinct from completion. -/
theorem C9_counterexample :
    scanDirectoryRun dbAllOk stopAfterOne ["a", "b"]
      = (["a"], SessionResult.finished 2 1) ∧
    scanDirectoryRun dbSkipB stopNever ["a", "b"]
      = (["a", "b"], SessionResult.finished 2 1) ∧
    (scanDirectoryRun dbAllOk stopAfterOne ["a", "b"]).2
      = (scanDirectoryRun dbSkipB stopNever ["a", "b"]).2 := by
  refine ⟨by decide, by decide, by decide⟩

/-- C9 amended: when the stop flag is raised after n files, the loop exits
at the next file boundary with exactly the first n files handed to storage
and no rollback, and the session always ends through the no-comics or the
normal completion observable (never the error branch) — reporting the full
file count as processed, with no distinct Stopped state. -/
theorem C9_amended :
    (∀ (db : String → FileOutcome) (n : Nat) (files : List String),
      scanDirectoryRun db (fun j => decide (n ≤ j)) files
        = (files.take n,
           if files.isEmpty then SessionResult.noComics
           else SessionResult.finished files.length
             (countOk db (files.take n)))) ∧
    (∀ (db : String → FileOutcome) (stop : Nat → Bool) (files : List String),
      (scanDirectoryRun db stop files).2 = SessionResult.noComics ∨
      ∃ i, (scanDirectoryRun db stop files).2
        = SessionResult.finished files.length i) := by
  constructor
  · intro db n files
    unfold scanDirectoryRun
    by_cases he : files.isEmpty
    · have h0 : files = [] := List.isEmpty_iff.mp he
      subst h0
      simp
    · simp only [he, if_false, Bool.false_eq_true]
      rw [scanLoop_take db n files 0]
      simp
  · intro db stop files
    unfold scanDirectoryRun
    by_cases he : files.isEmpty
    · left
      simp [he]
    · right
      exact ⟨(scanLoop db stop files 0).2, by simp [he]⟩

/-- C10: the to_dict and from_dict round trip restores every field except
cover_image, which is always None afterwards, because to_dict omits the
cover bytes while still emitting cover_image_type; hence any record whose
cover pairing held with a cover present violates the
both-present-or-both-absent pairing after the round trip. -/
theorem C10_roundtrip :
    (∀ m : CMeta, fromDictCM (toDictCM m)
      = { m with cover_image := PyVal.none }) ∧
    (∀ m : CMeta, dget (toDictCM m) "cover_image" = Option.none ∧
      dget (toDictCM m) "cover_image_type" = some m.cover_image_type) ∧
    (∀ m : CMeta, coverPairOk m → m.cover_image ≠ PyVal.none →
      ¬ coverPairOk (fromDictCM (toDictCM m))) := by
  have hrt : ∀ m : CMeta, fromDictCM (toDictCM m)
      = { m with cover_image := PyVal.none } := by
    intro m
    simp [fromDictCM, toDictCM, setattrCM]
  refine ⟨hrt, ?_, ?_⟩
  · intro m
    constructor
    · simp [toDictCM, dget]
    · simp [toDictCM, dget]
  · intro m hp hc hbad
    unfold coverPairOk at hp hbad
    rw [hrt m] at hbad
    simp at hbad
    exact hc (hp.mpr hbad)

/-- C10 witness: the round trip and the pairing violation at a record with
a concrete cover. -/
theorem C10_roundtrip_witness :
    fromDictCM (toDictCM mWithCover)
      = { mWithCover with cover_image := PyVal.none } ∧
    ¬ coverPairOk (fromDictCM (toDictCM mWithCover)) :=
  ⟨C10_roundtrip.1 mWithCover,
   C10_roundtrip.2.2 mWithCover
     (by unfold coverPairOk mWithCover; simp) (by decide)⟩

end ComicDB
